import Mathlib

/-!
Verification of the in-process memory-stream channel and of the
structured-output construction helpers of this repository.

The channel implementation itself (langchain_core.tracers.memory_stream) is
not part of the shown source tree: only its unit tests are.  Its data model
and operations are therefore modelled from the specification text, faithful
to the state machine it describes; the structured-output helpers are embedded
directly from libs/langchain/langchain/chains/structured_output/base.py.
-/

namespace MemoryStream

/-- Modelled from the spec: channel state, one of OPEN, CLOSED_PENDING
(producer closed, items may remain), EXHAUSTED (end marker consumed) and
POISONED (consumer attempted to iterate an already-EXHAUSTED stream). -/
inductive ChState where
  | OPEN
  | CLOSED_PENDING
  | EXHAUSTED
  | POISONED
deriving DecidableEq, Repr

/-- Modelled from the spec: an entry of the thread-safe item queue is either a
raw payload or the distinguished end-of-stream marker. -/
inductive QItem (α : Type) where
  | payload (a : α)
  | endMarker
deriving DecidableEq, Repr

/-- Modelled from the spec: the channel owns the FIFO queue and a fixed handle
to the reader scheduler it is bound to at construction, plus the state machine
state.  The implementation module is absent from the shown source. -/
structure Channel (α : Type) where
  readerScheduler : Nat
  queue : List (QItem α)
  state : ChState
deriving DecidableEq, Repr

/-- Modelled from the spec: the producer-facing handle, a thin stateless view
referencing the one underlying channel. -/
structure SendView (α : Type) where
  channel : Channel α
deriving DecidableEq, Repr

/-- Modelled from the spec: the consumer-facing handle, a thin stateless view
referencing the one underlying channel. -/
structure ReceiveView (α : Type) where
  channel : Channel α
deriving DecidableEq, Repr

/-- Modelled from the spec: construction binds the channel to a reader
scheduler handle, with an empty queue, in state OPEN. -/
def new_channel (α : Type) (readerScheduler : Nat) : Channel α :=
  { readerScheduler := readerScheduler, queue := [], state := ChState.OPEN }

/-- Modelled from the spec: obtain the producer-facing view; callable any
number of times, always referencing the same underlying channel. -/
def get_send_view (c : Channel α) : SendView α :=
  { channel := c }

/-- Modelled from the spec: obtain the consumer-facing view; callable any
number of times, always referencing the same underlying channel. -/
def get_receive_view (c : Channel α) : ReceiveView α :=
  { channel := c }

/-- Modelled from the spec: the error raised on a send attempt after close. -/
inductive SendError where
  | sendOnClosed
deriving DecidableEq, Repr

/-- Modelled from the spec: send enqueues the item and wakes the reader, and
fails with a send-on-closed-channel error when the channel has already been
closed by any send view (the wake primitive has no queue-visible effect and is
not modelled). -/
def send (c : Channel α) (a : α) : Except SendError (Channel α) :=
  match c.state with
  | ChState.OPEN =>
      Except.ok { c with queue := c.queue ++ [QItem.payload a] }
  | _ => Except.error SendError.sendOnClosed

/-- Modelled from the spec: close appends the end marker, wakes the reader
and moves OPEN to CLOSED_PENDING; closing an already-closed channel is a
no-op. -/
def close (c : Channel α) : Channel α :=
  match c.state with
  | ChState.OPEN =>
      { c with queue := c.queue ++ [QItem.endMarker],
               state := ChState.CLOSED_PENDING }
  | _ => c

/-- Modelled from the spec: the payloads drained before the end marker, in
FIFO order. -/
def payloadsBefore : List (QItem α) → List α
  | [] => []
  | QItem.endMarker :: _ => []
  | QItem.payload a :: rest => a :: payloadsBefore rest

/-- Modelled from the spec: the observable outcome of one attempt to iterate
the receive view to completion: normal termination yielding items in order,
the closed-resource error yielding nothing, or cooperative suspension after
yielding the items available so far (channel still open, no end marker). -/
inductive IterOutcome (α : Type) where
  | terminated (yielded : List α) (after : Channel α)
  | closedError (after : Channel α)
  | suspended (yielded : List α) (after : Channel α)
deriving DecidableEq, Repr

/-- Modelled from the spec: one iteration attempt over the receive view.
A POISONED channel fails immediately with the closed-resource error; an
EXHAUSTED channel transitions to POISONED and fails the same way on the very
first step; a CLOSED_PENDING channel drains everything, yields the payloads
preceding the end marker and terminates normally in state EXHAUSTED; an OPEN
channel drains and yields what is queued, then suspends awaiting a wake. -/
def iterate (c : Channel α) : IterOutcome α :=
  match c.state with
  | ChState.POISONED => IterOutcome.closedError c
  | ChState.EXHAUSTED =>
      IterOutcome.closedError { c with state := ChState.POISONED }
  | ChState.CLOSED_PENDING =>
      IterOutcome.terminated (payloadsBefore c.queue)
        { c with queue := [], state := ChState.EXHAUSTED }
  | ChState.OPEN =>
      IterOutcome.suspended (payloadsBefore c.queue) { c with queue := [] }

/-- Modelled from the spec: one producer call per step, used to reason about
whole operation histories. -/
inductive Op (α : Type) where
  | send (a : α)
  | close
  | iterate
deriving DecidableEq, Repr

/-- Modelled from the spec: the channel after one operation.  A failed send
surfaces its error to the producer and leaves the channel unchanged; an
iteration attempt leaves the channel in the state the outcome records. -/
def applyOp (c : Channel α) : Op α → Channel α
  | Op.send a =>
      match send c a with
      | Except.ok c₂ => c₂
      | Except.error _ => c
  | Op.close => close c
  | Op.iterate =>
      match iterate c with
      | IterOutcome.terminated _ c₂ => c₂
      | IterOutcome.closedError c₂ => c₂
      | IterOutcome.suspended _ c₂ => c₂

/-- Modelled from the spec: run a sequence of operations from a channel. -/
def run (c : Channel α) : List (Op α) → Channel α
  | [] => c
  | op :: ops => run (applyOp c op) ops

/-- Modelled from the spec: send each item of the list in order through the
send view, stopping at the first error. -/
def sendAll (c : Channel α) : List α → Except SendError (Channel α)
  | [] => Except.ok c
  | a :: as =>
      match send c a with
      | Except.ok c₂ => sendAll c₂ as
      | Except.error e => Except.error e

end MemoryStream

namespace StructuredOutput

/-- An element of the functions argument of create_openai_fn_runnable: a
dictionary assumed to be a valid OpenAI function, a pydantic BaseModel
subclass, or a plain Python function; each carries the name the conversion
helper extracts for it. -/
inductive SchemaFn where
  | pydanticClass (name : String)
  | dictSchema (name : String)
  | pyFunction (name : String)
deriving DecidableEq, Repr

/-- The test isinstance(f, type) and issubclass(f, BaseModel) of base.py. -/
def SchemaFn.isPydanticClass : SchemaFn → Bool
  | SchemaFn.pydanticClass _ => true
  | _ => false

/-- The converted OpenAI function description; the only field the embedded
code inspects is its name. -/
structure OpenAIFunction where
  name : String
deriving DecidableEq, Repr

/-- langchain_core.utils.function_calling.convert_to_openai_function, reduced
to the name extraction that base.py relies on. -/
def convert_to_openai_function : SchemaFn → OpenAIFunction
  | SchemaFn.pydanticClass n => { name := n }
  | SchemaFn.dictSchema n => { name := n }
  | SchemaFn.pyFunction n => { name := n }

/-- The pydantic_schema argument given to PydanticOutputFunctionsParser:
either the single pydantic class itself, or the name-to-model dictionary
built when more than one function is given. -/
inductive PydanticSchema where
  | single (fn : SchemaFn)
  | nameToModel (entries : List (String × SchemaFn))
deriving DecidableEq, Repr

/-- The output parser chosen by the parser-selection helper of base.py, or
supplied by the caller of create_openai_fn_runnable. -/
inductive OutputParser where
  | pydanticOutputFunctionsParser (pydantic_schema : PydanticSchema)
  | jsonOutputFunctionsParser (args_only : Bool)
  | custom (tag : String)
deriving DecidableEq, Repr

/-- The parser-selection helper of base.py (its snake-case namesake): the
branch is decided by the first element alone; with a pydantic first element it returns
a PydanticOutputFunctionsParser (over a name-to-model mapping when more than
one function is given, over the class itself otherwise), and otherwise a
JsonOutputFunctionsParser with args_only true exactly when at most one
function is given.  The Python body indexes functions[0] unguarded, so an
empty sequence has no defined result: modelled as none. -/
def getOpenAIOutputParser : List SchemaFn → Option OutputParser
  | [] => none
  | f :: fs =>
      some <|
        if f.isPydanticClass then
          OutputParser.pydanticOutputFunctionsParser
            (if (f :: fs).length > 1 then
              PydanticSchema.nameToModel
                ((f :: fs).map fun g => ((convert_to_openai_function g).name, g))
            else
              PydanticSchema.single f)
        else
          OutputParser.jsonOutputFunctionsParser (decide ((f :: fs).length ≤ 1))

/-- The ValueError exceptions base.py raises. -/
inductive PyError where
  | valueError (msg : String)
deriving DecidableEq, Repr

/-- The runnable sequence built by create_openai_fn_runnable: the converted
functions bound on the llm, the optional forced function_call binding, and
the output parser at the end of the pipe. -/
structure OpenAIFnRunnable where
  functions : List OpenAIFunction
  function_call : Option String
  parser : OutputParser
deriving DecidableEq, Repr

/-- create_openai_fn_runnable of base.py: an empty functions sequence raises
ValueError before anything is converted; otherwise the functions are
converted, function_call is forced when exactly one function is given and
enforce_single_function_usage holds, and the parser defaults to the
parser-selection helper applied to the same sequence. -/
def create_openai_fn_runnable (functions : List SchemaFn)
    (enforce_single_function_usage : Bool) (outputParser : Option OutputParser) :
    Except PyError OpenAIFnRunnable :=
  match functions with
  | [] =>
      Except.error
        (PyError.valueError ("Need to pass in at least one function. Received zero."))
  | f :: fs =>
      let openai_functions := (f :: fs).map convert_to_openai_function
      let function_call : Option String :=
        if openai_functions.length = 1 && enforce_single_function_usage then
          some (convert_to_openai_function f).name
        else none
      let parser : OutputParser :=
        match outputParser with
        | some p => p
        | none =>
            (getOpenAIOutputParser (f :: fs)).getD
              (OutputParser.jsonOutputFunctionsParser true)
      Except.ok
        { functions := openai_functions, function_call := function_call,
          parser := parser }

/-- The runnable built by create_structured_output_runnable, abstracted to
the private constructor each mode dispatches to and the arguments the
dispatch hands it. -/
inductive StructuredRunnable where
  | openaiTools (enforce_tool_usage : Bool) (return_single : Bool)
  | openaiFunctions (enforce_single_function_usage : Bool)
  | openaiJson
deriving DecidableEq, Repr

/-- The three mode strings create_structured_output_runnable accepts. -/
def validModes : List String :=
  ["openai-tools", "openai-functions", "openai-json"]

/-- create_structured_output_runnable of base.py: dispatches on mode to
_create_openai_tools_runnable, to
_create_openai_functions_structured_output_runnable (where a kwargs entry
enforce_single_function_usage, modelled as an Option, overrides the
enforce_function_usage parameter) or to _create_openai_json_runnable, and for
any other mode raises ValueError without constructing a runnable. -/
def create_structured_output_runnable (mode : String)
    (enforce_function_usage : Bool) (return_single : Bool)
    (kwargs_enforce_single_function_usage : Option Bool) :
    Except PyError StructuredRunnable :=
  if mode = "openai-tools" then
    Except.ok (StructuredRunnable.openaiTools enforce_function_usage return_single)
  else if mode = "openai-functions" then
    Except.ok
      (StructuredRunnable.openaiFunctions
        (kwargs_enforce_single_function_usage.getD enforce_function_usage))
  else if mode = "openai-json" then
    Except.ok StructuredRunnable.openaiJson
  else
    Except.error
      (PyError.valueError
        ("Invalid mode " ++ mode ++
          ". Expected one of openai-tools, openai-functions, openai-json."))

end StructuredOutput

namespace MemoryStream

theorem payloadsBefore_map_append {α : Type} (as : List α) (rest : List (QItem α)) :
    payloadsBefore (as.map QItem.payload ++ rest) = as ++ payloadsBefore rest := by
  induction as with
  | nil => simp
  | cons a as ih => simp [payloadsBefore, ih]

theorem sendAll_open {α : Type} (as : List α) :
    ∀ c : Channel α, c.state = ChState.OPEN →
      sendAll c as = Except.ok { c with queue := c.queue ++ as.map QItem.payload } := by
  induction as with
  | nil => intro c hc; simp [sendAll]
  | cons a as ih =>
      intro c hc
      have hsend : send c a = Except.ok { c with queue := c.queue ++ [QItem.payload a] } := by
        simp [send, hc]
      have hrec := ih { c with queue := c.queue ++ [QItem.payload a] } hc
      simp [sendAll, hsend, hrec]

/-- C1: a channel whose receive view has been iterated to normal completion is
EXHAUSTED, and a second iteration attempt transitions it to POISONED and fails
immediately with the closed-resource error, yielding no items and not
terminating as an empty sequence. -/
theorem post_exhaustion_poisoning {α : Type} (c : Channel α) (ys : List α)
    (c₂ : Channel α) (hfirst : iterate c = IterOutcome.terminated ys c₂) :
    c₂.state = ChState.EXHAUSTED ∧
      iterate c₂ = IterOutcome.closedError { c₂ with state := ChState.POISONED } := by
  cases hs : c.state with
  | OPEN => simp [iterate, hs] at hfirst
  | POISONED => simp [iterate, hs] at hfirst
  | EXHAUSTED => simp [iterate, hs] at hfirst
  | CLOSED_PENDING =>
      simp [iterate, hs] at hfirst
      obtain ⟨-, hc₂⟩ := hfirst
      subst hc₂
      simp [iterate]

/-- C1 witness: the concrete channel obtained by closing a fresh channel and
iterating it once. -/
theorem post_exhaustion_poisoning_witness :
    Channel.state { readerScheduler := 0, queue := ([] : List (QItem Nat)),
                    state := ChState.EXHAUSTED } = ChState.EXHAUSTED ∧
      iterate { readerScheduler := 0, queue := ([] : List (QItem Nat)),
                state := ChState.EXHAUSTED } =
        IterOutcome.closedError
          { readerScheduler := 0, queue := [], state := ChState.POISONED } :=
  post_exhaustion_poisoning (close (new_channel Nat 0)) []
    { readerScheduler := 0, queue := [], state := ChState.EXHAUSTED } (by decide)

/-- C2: sending the items of any list in order through the send view of a
fresh channel succeeds, and after close the iteration of the receive view
terminates normally, yielding exactly those items in the same order. -/
theorem order_preservation {α : Type} (sched : Nat) (as : List α) :
    ∃ c : Channel α, sendAll (new_channel α sched) as = Except.ok c ∧
      iterate (close c) =
        IterOutcome.terminated as
          { readerScheduler := sched, queue := [], state := ChState.EXHAUSTED } := by
  refine ⟨{ readerScheduler := sched, queue := as.map QItem.payload,
            state := ChState.OPEN }, ?_, ?_⟩
  · simpa [new_channel] using sendAll_open as (new_channel α sched) rfl
  · simp [close, iterate, payloadsBefore_map_append, payloadsBefore]

/-- C3: close is idempotent; the channel after closing twice is identical to
the channel after closing once, so every observable effect (items delivered,
end markers, errors) coincides and the second call is a no-op. -/
theorem idempotent_close {α : Type} (c : Channel α) : close (close c) = close c := by
  cases hs : c.state <;> simp [close, hs]

/-- C5: closing a fresh channel with no prior send makes the first iteration
of the receive view yield zero items and terminate normally, with no error. -/
theorem empty_stream (α : Type) (sched : Nat) :
    iterate (close (new_channel α sched)) =
      IterOutcome.terminated []
        { readerScheduler := sched, queue := [], state := ChState.EXHAUSTED } := by
  simp [new_channel, close, iterate, payloadsBefore]

/-- C6: construction binds the channel to the given reader-scheduler handle
(fresh, open, empty queue), and the send-view and receive-view getters always
return views referencing the one shared underlying channel, however many
times they are called. -/
theorem channel_views_shared (α : Type) (sched : Nat) (c : Channel α) :
    (new_channel α sched).readerScheduler = sched ∧
      (new_channel α sched).state = ChState.OPEN ∧
      (new_channel α sched).queue = [] ∧
      (get_send_view c).channel = c ∧
      (get_receive_view c).channel = c ∧
      (get_send_view c).channel = (get_receive_view c).channel := by
  simp [new_channel, get_send_view, get_receive_view]

theorem applyOp_state_nonopen {α : Type} (c : Channel α) (op : Op α)
    (h : c.state ≠ ChState.OPEN) : (applyOp c op).state ≠ ChState.OPEN := by
  cases hs : c.state with
  | OPEN => exact absurd hs h
  | CLOSED_PENDING => cases op <;> simp [applyOp, send, close, iterate, hs]
  | EXHAUSTED => cases op <;> simp [applyOp, send, close, iterate, hs]
  | POISONED => cases op <;> simp [applyOp, send, close, iterate, hs]

theorem run_state_open_iff {α : Type} (ops : List (Op α)) :
    ∀ c : Channel α,
      (run c ops).state = ChState.OPEN ↔ (c.state = ChState.OPEN ∧ Op.close ∉ ops) := by
  induction ops with
  | nil => intro c; simp [run]
  | cons op ops ih =>
      intro c
      rw [run, ih]
      cases op with
      | send a =>
          have hsame : (applyOp c (Op.send a)).state = c.state := by
            cases hs : c.state <;> simp [applyOp, send, hs]
          simp [hsame, List.mem_cons]
      | close =>
          have hne : (applyOp c Op.close).state ≠ ChState.OPEN := by
            cases hs : c.state <;> simp [applyOp, close, hs]
          simp [hne, List.mem_cons]
      | iterate =>
          have hsame : (applyOp c Op.iterate).state = ChState.OPEN ↔
              c.state = ChState.OPEN := by
            cases hs : c.state <;> simp [applyOp, iterate, hs]
          simp [hsame, List.mem_cons]

/-- C4: after any history of operations on a fresh channel, a send attempt
enqueues the item and succeeds exactly when no close has occurred in the
history, and when a close has occurred it fails with the
send-on-closed-channel error, surfaced directly to the producer. -/
theorem send_succeeds_iff_not_closed {α : Type} (sched : Nat) (ops : List (Op α))
    (a : α) :
    ((∃ c₂, send (run (new_channel α sched) ops) a = Except.ok c₂ ∧
        c₂.queue = (run (new_channel α sched) ops).queue ++ [QItem.payload a]) ↔
      Op.close ∉ ops) ∧
    (Op.close ∈ ops →
      send (run (new_channel α sched) ops) a = Except.error SendError.sendOnClosed) := by
  have hopen : (run (new_channel α sched) ops).state = ChState.OPEN ↔ Op.close ∉ ops := by
    simpa [new_channel] using run_state_open_iff ops (new_channel α sched)
  constructor
  · constructor
    · rintro ⟨c₂, hc₂, -⟩
      cases hs : (run (new_channel α sched) ops).state with
      | OPEN => exact hopen.mp hs
      | CLOSED_PENDING => simp [send, hs] at hc₂
      | EXHAUSTED => simp [send, hs] at hc₂
      | POISONED => simp [send, hs] at hc₂
    · intro hnot
      have hs := hopen.mpr hnot
      refine ⟨{ run (new_channel α sched) ops with
                queue := (run (new_channel α sched) ops).queue ++ [QItem.payload a] },
        ?_, rfl⟩
      simp [send, hs]
  · intro hmem
    cases hs : (run (new_channel α sched) ops).state with
    | OPEN => exact absurd (hopen.mp hs) (fun hn => hn hmem)
    | CLOSED_PENDING => simp [send, hs]
    | EXHAUSTED => simp [send, hs]
    | POISONED => simp [send, hs]

/-- C4 witness: a send after a close in the history fails with the
send-on-closed error, and a send with no close in the history succeeds. -/
theorem send_succeeds_iff_not_closed_witness :
    send (run (new_channel Nat 0) [Op.close]) 3 = Except.error SendError.sendOnClosed ∧
      (∃ c₂, send (run (new_channel Nat 0) [Op.send 1]) 3 = Except.ok c₂ ∧
        c₂.queue = (run (new_channel Nat 0) [Op.send 1]).queue ++ [QItem.payload 3]) :=
  ⟨(send_succeeds_iff_not_closed 0 [Op.close] 3).2 (by decide),
   (send_succeeds_iff_not_closed 0 [Op.send 1] 3).1.mpr (by decide)⟩

/-- C7: leaving the OPEN state is one-way: no sequence of send, close or
iterate operations ever brings a channel that is out of OPEN back to OPEN. -/
theorem closing_is_one_way {α : Type} (c : Channel α) (ops : List (Op α))
    (h : c.state ≠ ChState.OPEN) : (run c ops).state ≠ ChState.OPEN := by
  induction ops generalizing c with
  | nil => exact h
  | cons op ops ih => exact ih (applyOp c op) (applyOp_state_nonopen c op h)

/-- C7 witness: an exhausted channel stays out of OPEN across a concrete
sequence of further operations. -/
theorem closing_is_one_way_witness :
    Channel.state
        (run { readerScheduler := 0, queue := ([] : List (QItem Nat)),
               state := ChState.EXHAUSTED }
          [Op.iterate, Op.send 5, Op.close, Op.iterate]) ≠ ChState.OPEN :=
  closing_is_one_way
    { readerScheduler := 0, queue := [], state := ChState.EXHAUSTED }
    [Op.iterate, Op.send 5, Op.close, Op.iterate] (by decide)

end MemoryStream

namespace StructuredOutput

/-- C8: create_openai_fn_runnable raises ValueError exactly when the
functions sequence is empty (with the message of base.py), and for every
non-empty sequence it returns a runnable and raises nothing. -/
theorem openai_fn_runnable_empty_valueerror (functions : List SchemaFn)
    (enforce : Bool) (op : Option OutputParser) :
    ((∃ msg, create_openai_fn_runnable functions enforce op =
        Except.error (PyError.valueError msg)) ↔ functions = []) ∧
    (functions = [] →
      create_openai_fn_runnable functions enforce op =
        Except.error
          (PyError.valueError ("Need to pass in at least one function. Received zero."))) ∧
    (functions ≠ [] →
      ∃ r, create_openai_fn_runnable functions enforce op = Except.ok r) := by
  cases functions with
  | nil => simp [create_openai_fn_runnable]
  | cons f fs => simp [create_openai_fn_runnable]

/-- C8 witness: the empty sequence raises the ValueError and a singleton
sequence yields a runnable. -/
theorem openai_fn_runnable_empty_valueerror_witness :
    create_openai_fn_runnable [] true none =
      Except.error
        (PyError.valueError ("Need to pass in at least one function. Received zero.")) ∧
      (∃ r, create_openai_fn_runnable [SchemaFn.pyFunction ("f")] true none =
        Except.ok r) :=
  ⟨(openai_fn_runnable_empty_valueerror [] true none).2.1 rfl,
   (openai_fn_runnable_empty_valueerror [SchemaFn.pyFunction ("f")] true none).2.2
     (by decide)⟩

/-- C9: create_structured_output_runnable dispatches on mode to exactly one
of the three constructors, raises ValueError for every other mode, and in the
openai-functions branch a kwargs entry enforce_single_function_usage
overrides the enforce_function_usage parameter. -/
theorem structured_output_mode_dispatch (mode : String) (e rs : Bool)
    (kw : Option Bool) :
    (mode = "openai-tools" →
      create_structured_output_runnable mode e rs kw =
        Except.ok (StructuredRunnable.openaiTools e rs)) ∧
    (mode = "openai-functions" →
      create_structured_output_runnable mode e rs kw =
        Except.ok (StructuredRunnable.openaiFunctions (kw.getD e))) ∧
    (mode = "openai-json" →
      create_structured_output_runnable mode e rs kw =
        Except.ok StructuredRunnable.openaiJson) ∧
    (mode ∉ validModes →
      ∃ msg, create_structured_output_runnable mode e rs kw =
        Except.error (PyError.valueError msg)) := by
  refine ⟨?_, ?_, ?_, ?_⟩
  · intro h; subst h; simp [create_structured_output_runnable]
  · intro h; subst h; simp [create_structured_output_runnable]
  · intro h; subst h; simp [create_structured_output_runnable]
  · intro h
    simp [validModes] at h
    obtain ⟨h1, h2, h3⟩ := h
    simp [create_structured_output_runnable, h1, h2, h3]

/-- C9 witness: the three valid modes each reach their constructor (with the
kwargs override in effect for openai-functions) and an invalid mode raises a
ValueError. -/
theorem structured_output_mode_dispatch_witness :
    create_structured_output_runnable ("openai-tools") true false none =
        Except.ok (StructuredRunnable.openaiTools true false) ∧
      create_structured_output_runnable ("openai-functions") false true (some true) =
        Except.ok (StructuredRunnable.openaiFunctions true) ∧
      create_structured_output_runnable ("openai-json") true true none =
        Except.ok StructuredRunnable.openaiJson ∧
      (∃ msg, create_structured_output_runnable ("json-mode") true true none =
        Except.error (PyError.valueError msg)) :=
  ⟨(structured_output_mode_dispatch ("openai-tools") true false none).1 rfl,
   (structured_output_mode_dispatch ("openai-functions") false true (some true)).2.1 rfl,
   (structured_output_mode_dispatch ("openai-json") true true none).2.2.1 rfl,
   (structured_output_mode_dispatch ("json-mode") true true none).2.2.2 (by decide)⟩

/-- C10: the parser-selection helper has no result on the empty sequence
(functions[0] is indexed unguarded), picks the pydantic branch exactly when
the first element is a pydantic class (with a name-to-model mapping when more
than one function is given and the class itself otherwise), and otherwise
returns a JsonOutputFunctionsParser whose args_only flag is true exactly when
at most one function is given. -/
theorem output_parser_selection_by_first (f : SchemaFn) (fs : List SchemaFn) :
    getOpenAIOutputParser [] = none ∧
      ((∃ s, getOpenAIOutputParser (f :: fs) =
          some (OutputParser.pydanticOutputFunctionsParser s)) ↔
        f.isPydanticClass = true) ∧
      (f.isPydanticClass = true → fs = [] →
        getOpenAIOutputParser (f :: fs) =
          some (OutputParser.pydanticOutputFunctionsParser (PydanticSchema.single f))) ∧
      (f.isPydanticClass = true → fs ≠ [] →
        getOpenAIOutputParser (f :: fs) =
          some (OutputParser.pydanticOutputFunctionsParser
            (PydanticSchema.nameToModel
              ((f :: fs).map fun g => ((convert_to_openai_function g).name, g))))) ∧
      (f.isPydanticClass = false →
        getOpenAIOutputParser (f :: fs) =
          some (OutputParser.jsonOutputFunctionsParser fs.isEmpty)) := by
  refine ⟨rfl, ?_, ?_, ?_, ?_⟩
  · constructor
    · rintro ⟨s, hs⟩
      by_contra hnp
      simp [getOpenAIOutputParser, hnp] at hs
    · intro hp
      cases fs with
      | nil => exact ⟨PydanticSchema.single f, by simp [getOpenAIOutputParser, hp]⟩
      | cons g gs =>
          refine ⟨PydanticSchema.nameToModel
            ((f :: g :: gs).map fun x => ((convert_to_openai_function x).name, x)), ?_⟩
          simp [getOpenAIOutputParser, hp]
  · intro hp hfs
    subst hfs
    simp [getOpenAIOutputParser, hp]
  · intro hp hfs
    cases fs with
    | nil => exact absurd rfl hfs
    | cons g gs => simp [getOpenAIOutputParser, hp]
  · intro hp
    cases fs with
    | nil => simp [getOpenAIOutputParser, hp]
    | cons g gs =>
        simp [getOpenAIOutputParser, hp, List.isEmpty]

/-- C10 witness: a single pydantic class yields the single-schema pydantic
branch, two pydantic classes yield the name-to-model branch, and a
non-pydantic first element yields the JSON branch with args_only false when
two functions are given. -/
theorem output_parser_selection_by_first_witness :
    getOpenAIOutputParser [SchemaFn.pydanticClass ("A")] =
        some (OutputParser.pydanticOutputFunctionsParser
          (PydanticSchema.single (SchemaFn.pydanticClass ("A")))) ∧
      getOpenAIOutputParser
          [SchemaFn.pydanticClass ("A"), SchemaFn.pydanticClass ("B")] =
        some (OutputParser.pydanticOutputFunctionsParser
          (PydanticSchema.nameToModel
            [("A", SchemaFn.pydanticClass ("A")), ("B", SchemaFn.pydanticClass ("B"))])) ∧
      getOpenAIOutputParser [SchemaFn.dictSchema ("d"), SchemaFn.pyFunction ("g")] =
        some (OutputParser.jsonOutputFunctionsParser false) :=
  ⟨(output_parser_selection_by_first (SchemaFn.pydanticClass ("A")) []).2.2.1
      rfl rfl,
   (output_parser_selection_by_first (SchemaFn.pydanticClass ("A"))
      [SchemaFn.pydanticClass ("B")]).2.2.2.1 rfl (by decide),
   (output_parser_selection_by_first (SchemaFn.dictSchema ("d"))
      [SchemaFn.pyFunction ("g")]).2.2.2.2 rfl⟩

end StructuredOutput
